import Mathlib

/-!
Verification of the copy-orchestration core of `app.py` (Azure Document
Intelligence model manager).

The Python source is shallowly embedded: each network exchange is an
explicit oracle value (the response the remote service would produce), and
every function below is translated from the corresponding function or code
block of `app.py`.  Line numbers in doc comments refer to `app.py`.
-/

namespace DIAdmin

/-- Lexicographic order on code points, as Python compares strings:
`charListLt a b` holds iff the string with data `a` is strictly smaller
than the string with data `b`. -/
def charListLt : List Char → List Char → Bool
  | [], [] => false
  | [], _ :: _ => true
  | _ :: _, [] => false
  | a :: as, b :: bs =>
    if a.toNat < b.toNat then true
    else if b.toNat < a.toNat then false
    else charListLt as bs

/-- Python `a >= b` on strings: total order, so `a >= b` iff not `a < b`. -/
def pyGe (a b : String) : Bool := ! charListLt a.data b.data

/-- ASCII lowercasing of one character (the remote status vocabulary that
`app.py` lowercases is ASCII, where Python `str.lower` acts exactly like
this). -/
def lowerChar (c : Char) : Char :=
  if 65 ≤ c.toNat && c.toNat ≤ 90 then Char.ofNat (c.toNat + 32) else c

/-- Python `s.lower()` restricted to ASCII input. -/
def lowerString (s : String) : String := String.mk (s.data.map lowerChar)

/-- Python single-quote character, used by `repr` of a simple string. -/
def pyQuote (s : String) : String :=
  String.singleton (Char.ofNat 39) ++ s ++ String.singleton (Char.ofNat 39)

/-- A model listed on the source resource (lines 396-397): `model_id` plus
the optional `api_version` attribute.  `none` models an absent attribute;
Python also treats an empty string as falsy, which
`get_api_version_from_model` checks explicitly. -/
structure Model where
  model_id : String
  api_version : Option String
  deriving DecidableEq

/-- Lines 109-127, `get_api_version_from_model`: if the model has a truthy
`api_version` that is lexicographically at least "2024-11-30", use
"2024-11-30"; otherwise default to "2023-07-31". -/
def get_api_version_from_model (model : Model) : String :=
  match model.api_version with
  | some v =>
    if v ≠ "" then
      (if pyGe v "2024-11-30" then "2024-11-30" else "2023-07-31")
    else "2023-07-31"
  | none => "2023-07-31"

/-- Lines 146-149 and 199-202 (identical in `authorize_copy_model` and
`copy_model_to_target`): the URL path segment selected from the API
version. -/
def path_prefix_for (api_version : String) : String :=
  if pyGe api_version "2024-11-30" then "documentintelligence" else "formrecognizer"

/-- Line 151: the authorize-copy URL built on the target endpoint. -/
def authorize_copy_url (target_endpoint api_version : String) : String :=
  target_endpoint ++ "/" ++ path_prefix_for api_version ++
    "/documentModels:authorizeCopy?api-version=" ++ api_version

/-- Line 204: the copy-to URL built on the source endpoint. -/
def copy_to_url (source_endpoint source_model_id api_version : String) : String :=
  source_endpoint ++ "/" ++ path_prefix_for api_version ++ "/documentModels/" ++
    source_model_id ++ ":copyTo?api-version=" ++ api_version

/-- Outcome of the authorize HTTP exchange as seen by
`authorize_copy_model`: a 2xx response carrying the (opaque) authorization
JSON, or a request failure whose already-formatted error message is the
string the except-branch of lines 171-180 builds. -/
inductive AuthHttp
  | success (auth : String)
  | failure (msg : String)
  deriving DecidableEq

/-- Return value of `authorize_copy_model`: the authorization object, or
the dict containing only an "error" key. -/
inductive AuthResult
  | auth (a : String)
  | err (msg : String)
  deriving DecidableEq

/-- Lines 129-180, `authorize_copy_model` (response handling; the URL it
posts to is `authorize_copy_url`): a 2xx response yields the parsed
authorization body, an exception yields an error dict. -/
def authorize_copy_model (resp : AuthHttp) : AuthResult :=
  match resp with
  | .success a => .auth a
  | .failure msg => .err msg

/-- Outcome of the copy-to HTTP exchange as seen by `copy_model_to_target`:
a 2xx response with an optional Operation-Location header, or a request
failure with its formatted message (lines 225-234). -/
inductive InitHttp
  | success (operationLocation : Option String)
  | failure (msg : String)
  deriving DecidableEq

/-- Return value of `copy_model_to_target`: the operation location, or the
dict containing only an "error" key. -/
inductive InitResult
  | ok (operation_location : String)
  | err (msg : String)
  deriving DecidableEq

/-- Lines 182-234, `copy_model_to_target` (response handling; the URL it
posts to is `copy_to_url`): on 2xx the Operation-Location header is
required — its absence yields the dedicated error dict of line 223 even
though the HTTP call succeeded; exceptions yield their formatted message. -/
def copy_model_to_target (resp : InitHttp) : InitResult :=
  match resp with
  | .success (some loc) => .ok loc
  | .success none => .err "No Operation-Location header in response"
  | .failure msg => .err msg

/-- The "error" field of a poll response body: a structured JSON object
(whose "message" field may be absent) or a plain string. -/
inductive ErrorPayload
  | obj (message : Option String)
  | str (s : String)
  deriving DecidableEq

/-- Python `str` of an `ErrorPayload`: a dict prints as
`\x7b'message': '<m>'\x7d` (modelled for objects holding just the message
field), a plain string prints as itself. -/
def pyStr : ErrorPayload → String
  | .obj none => "\x7b\x7d"
  | .obj (some m) => "\x7b" ++ pyQuote "message" ++ ": " ++ pyQuote m ++ "\x7d"
  | .str s => s

/-- A poll response body (line 250, `response.json()`): the "status" field
(absent modelled as `none`), the model id inside the "result" payload when
present, and the optional "error" payload. -/
structure StatusBody where
  status : Option String
  resultModelId : Option String
  error : Option ErrorPayload
  deriving DecidableEq

/-- Outcome of one poll HTTP exchange as seen by `check_copy_status`: a 2xx
response with a JSON body, or a request failure with the formatted message
built by lines 267-275. -/
inductive PollHttp
  | success (body : StatusBody)
  | failure (msg : String)
  deriving DecidableEq

/-- Return value of `check_copy_status`: the JSON body, or the dict
containing only an "error" key. -/
inductive StatusResult
  | body (b : StatusBody)
  | err (msg : String)
  deriving DecidableEq

/-- Lines 236-275, `check_copy_status` (response handling): on 2xx the
parsed body is returned unchanged; an exception yields an error dict. -/
def check_copy_status (resp : PollHttp) : StatusResult :=
  match resp with
  | .success b => .body b
  | .failure msg => .err msg

/-- Lines 928-932: `error_info = status_result.get('error', \x7b\x7d)`;
a dict yields its "message" field ("Unknown error" when absent), any other
value yields its Python string form. -/
def failed_error_msg : Option ErrorPayload → String
  | none => "Unknown error"
  | some (.obj none) => "Unknown error"
  | some (.obj (some m)) => m
  | some (.str s) => s

/-- How one iteration of the poll loop ends, when it does not continue:
`error` is the break of lines 909-915 (any "error" key in the status
result), `succeeded` the break of lines 919-926, `failed` the break of
lines 927-938 carrying the extracted message. -/
inductive StepBreak
  | error (msg : String)
  | succeeded
  | failed (msg : String)
  deriving DecidableEq

/-- One iteration of the poll loop body (lines 907-945) on the response of
the current attempt: `none` means the loop continues (non-terminal status,
lines 939-945).  Note the check of line 909 fires on any "error" key in the
body, so a terminal Failed body carrying an error payload breaks here, not
in the Failed branch. -/
def poll_step (resp : PollHttp) : Option StepBreak :=
  match check_copy_status resp with
  | .err msg => some (.error msg)
  | .body b =>
    match b.error with
    | some payload => some (.error (pyStr payload))
    | none =>
      let status := lowerString (b.status.getD "")
      if status = "succeeded" then some .succeeded
      else if status = "failed" then some (.failed (failed_error_msg none))
      else none

/-- The `while attempt < max_attempts` loop of lines 905-945: `oracle n` is
the response to the n-th poll (1-indexed), `fuel` the remaining attempts.
Returns how the loop broke (`none` = attempts exhausted) and the final
value of `attempt`, i.e. the number of polls performed. -/
def poll_aux (oracle : Nat → PollHttp) : Nat → Nat → Option StepBreak × Nat
  | attempt, 0 => (none, attempt)
  | attempt, fuel + 1 =>
    match poll_step (oracle (attempt + 1)) with
    | some br => (some br, attempt + 1)
    | none => poll_aux oracle (attempt + 1) fuel

/-- Line 901: the poll bound. -/
def max_attempts : Nat := 30

/-- A recorded per-pairing outcome: an entry of
`all_results[target]['successful']` (carrying `model_id` and
`new_model_id`) or of `all_results[target]['failed']` (carrying `model_id`
and the reason string). -/
inductive Outcome
  | success (model_id new_model_id : String)
  | failure (model_id error : String)
  deriving DecidableEq

/-- Lines 899-952, the full poll phase of one pairing: runs the loop, turns
the break into the recorded outcome (with the "Status check failed: "
prefix of lines 910-914 on poll errors), and appends the timed-out record
of lines 947-952 when `copy_completed` is false and `attempt` reached
`max_attempts`.  Returns the records appended and the number of polls
performed. -/
def poll_phase (oracle : Nat → PollHttp) (model_id new_mid : String) (maxA : Nat) :
    List Outcome × Nat :=
  let r := poll_aux oracle 0 maxA
  let recs : List Outcome :=
    match r.1 with
    | some (.error msg) => [Outcome.failure model_id ("Status check failed: " ++ msg)]
    | some .succeeded => [Outcome.success model_id new_mid]
    | some (.failed msg) => [Outcome.failure model_id msg]
    | none => []
  let copy_completed : Bool := match r.1 with | some .succeeded => true | _ => false
  if ! copy_completed && maxA ≤ r.2 then
    (recs ++ [Outcome.failure model_id "Copy operation timed out"], r.2)
  else (recs, r.2)

/-- Line 864: destination id = source id plus suffix; a falsy (empty)
suffix leaves the id unchanged. -/
def new_model_id (model_id copy_suffix : String) : String :=
  if copy_suffix ≠ "" then model_id ++ copy_suffix else model_id

/-- Which call site emitted a request. -/
inductive ReqKind
  | authorize
  | initiate
  | poll
  deriving DecidableEq

/-- One outgoing HTTP request of the orchestration, reduced to the parts
the claims concern: the URL and the Ocp-Apim-Subscription-Key header value
(request bodies are not modelled). -/
structure Request where
  kind : ReqKind
  url : String
  key : String
  deriving DecidableEq

/-- A target's name and endpoint (from its `target_config` dict). -/
structure TargetCfg where
  name : String
  endpoint : String
  deriving DecidableEq

/-- The remote responses one pairing will observe: the authorize exchange,
the copy-to exchange, and the poll exchanges indexed by attempt number. -/
structure PairingOracle where
  authResp : AuthHttp
  initResp : InitHttp
  pollResp : Nat → PollHttp

/-- Line 868: `get_api_version_from_model(model) if model else "2023-07-31"`
(a model id missing from `model_id_to_model` defaults to the legacy
version). -/
def model_api_version (model : Option Model) : String :=
  match model with
  | some m => get_api_version_from_model m
  | none => "2023-07-31"

/-- Lines 862-952, the processing of one (model, target) pairing: compute
the destination id and the API version, authorize on the target with the
target key, on success initiate on the source with the source key, on
success poll the operation location with the source key.  Returns the
outcome records appended for this pairing and the requests issued, in
order. -/
def process_pairing (source_endpoint source_key : String) (t : TargetCfg)
    (target_key : String) (model : Option Model) (model_id copy_suffix : String)
    (po : PairingOracle) : List Outcome × List Request :=
  let nmid := new_model_id model_id copy_suffix
  let v := model_api_version model
  let authReq : Request := ⟨.authorize, authorize_copy_url t.endpoint v, target_key⟩
  match authorize_copy_model po.authResp with
  | .err msg =>
    ([Outcome.failure model_id ("Authorization failed: " ++ msg)], [authReq])
  | .auth _ =>
    let initReq : Request := ⟨.initiate, copy_to_url source_endpoint model_id v, source_key⟩
    match copy_model_to_target po.initResp with
    | .err msg =>
      ([Outcome.failure model_id ("Copy initiation failed: " ++ msg)], [authReq, initReq])
    | .ok loc =>
      let pr := poll_phase po.pollResp model_id nmid max_attempts
      (pr.1, authReq :: initReq :: List.replicate pr.2 ⟨.poll, loc, source_key⟩)

/-- Everything the run knows about one selected target: its config, the
result of resolving its Key Vault secret (`none` = unavailable, covering
lines 839-849), whether `get_admin_client` succeeded (lines 851-859), and
the pairing oracles indexed by the position of the model in the
selection. -/
structure TargetInput where
  cfg : TargetCfg
  key : Option String
  client_ok : Bool
  pairings : Nat → PairingOracle

/-- Lines 861-952: the inner `for model_id in selected_model_ids` loop for
one target whose credential and client resolved, accumulating records and
requests across pairings in selection order. -/
def run_pairings (source_endpoint source_key copy_suffix : String)
    (models : String → Option Model) (cfg : TargetCfg) (target_key : String)
    (po : Nat → PairingOracle) : List String → Nat → List Outcome × List Request
  | [], _ => ([], [])
  | mid :: rest, i =>
    let pr := process_pairing source_endpoint source_key cfg target_key (models mid)
      mid copy_suffix (po i)
    let rr := run_pairings source_endpoint source_key copy_suffix models cfg target_key
      po rest (i + 1)
    (pr.1 ++ rr.1, pr.2 ++ rr.2)

/-- Lines 835-952, the body of the `for target_config in selected_targets`
loop for one target: a missing key records a failure per selected model and
issues no request (lines 842-849, the `continue`); likewise a failed client
creation (lines 851-859); otherwise every pairing is processed. -/
def run_target (source_endpoint source_key copy_suffix : String)
    (models : String → Option Model) (selected : List String) (t : TargetInput) :
    List Outcome × List Request :=
  match t.key with
  | none =>
    (selected.map (fun mid => Outcome.failure mid "Failed to retrieve target API key"), [])
  | some tk =>
    if t.client_ok then
      run_pairings source_endpoint source_key copy_suffix models t.cfg tk t.pairings
        selected 0
    else
      (selected.map (fun mid => Outcome.failure mid "Failed to create target DI client"), [])

/-- Lines 832-952, the whole multi-target copy run after the source key was
obtained: targets are processed sequentially and independently; the entry
for each target (keyed by its name, as in `all_results`) holds its recorded
outcomes and the requests issued against it. -/
def run_copy (source_endpoint source_key copy_suffix : String)
    (models : String → Option Model) (selected : List String) :
    List TargetInput → List (String × List Outcome × List Request)
  | [] => []
  | t :: ts =>
    let tr := run_target source_endpoint source_key copy_suffix models selected t
    (t.cfg.name, tr.1, tr.2) ::
      run_copy source_endpoint source_key copy_suffix models selected ts

/-- Modelled from the spec's words (§4.2 VersionRouter), for comparison
with the code's routing: the (api-version, path segment) pair chosen from
the model's recorded `apiVersion` alone — present and lexicographically at
least "2024-11-30" routes to the newer dialect, any other case (including
absent) to the legacy dialect. -/
def routeFor_spec (api_version : Option String) : String × String :=
  match api_version with
  | some a =>
    if pyGe a "2024-11-30" then ("2024-11-30", "documentintelligence")
    else ("2023-07-31", "formrecognizer")
  | none => ("2023-07-31", "formrecognizer")

/-! Helper lemmas. -/

lemma pyGe_new_new : pyGe "2024-11-30" "2024-11-30" = true := rfl

lemma pyGe_old_new : pyGe "2023-07-31" "2024-11-30" = false := rfl

lemma pyGe_empty_new : pyGe "" "2024-11-30" = false := rfl

lemma path_prefix_for_new : path_prefix_for "2024-11-30" = "documentintelligence" := rfl

lemma path_prefix_for_old : path_prefix_for "2023-07-31" = "formrecognizer" := rfl

/-- The code's routing pair coincides with the spec's routing function of
the recorded api version. -/
lemma code_route_eq_spec (m : Model) :
    (get_api_version_from_model m, path_prefix_for (get_api_version_from_model m))
      = routeFor_spec m.api_version := by
  cases hv : m.api_version with
  | none => simp [get_api_version_from_model, routeFor_spec, hv, path_prefix_for_old]
  | some a =>
    by_cases ha : a = ""
    · subst ha
      simp [get_api_version_from_model, routeFor_spec, hv, pyGe_empty_new,
        path_prefix_for_old]
    · by_cases hg : pyGe a "2024-11-30" = true
      · simp [get_api_version_from_model, routeFor_spec, hv, ha, hg,
          path_prefix_for_new]
      · simp [get_api_version_from_model, routeFor_spec, hv, ha, hg,
          path_prefix_for_old]

/-- If the loop body continues on every attempt in scope, the loop runs out
of fuel with `attempt` advanced by exactly `fuel`. -/
lemma poll_aux_exhaust (oracle : Nat → PollHttp) :
    ∀ (fuel a : Nat),
      (∀ j, a < j → j ≤ a + fuel → poll_step (oracle j) = none) →
      poll_aux oracle a fuel = (none, a + fuel) := by
  intro fuel
  induction fuel with
  | zero => intro a _; simp [poll_aux]
  | succ fuel ih =>
    intro a h
    have hstep : poll_step (oracle (a + 1)) = none := h (a + 1) (by omega) (by omega)
    have ihh := ih (a + 1) (fun j hj1 hj2 => h j (by omega) (by omega))
    simp [poll_aux, hstep, ihh]
    omega

/-- If the loop body continues strictly before attempt `k` and breaks with
`br` at attempt `k ≤ a + fuel`, the loop returns that break at attempt
count `k`. -/
lemma poll_aux_break (oracle : Nat → PollHttp) (br : StepBreak) :
    ∀ (fuel a k : Nat), a < k → k ≤ a + fuel →
      (∀ j, a < j → j < k → poll_step (oracle j) = none) →
      poll_step (oracle k) = some br →
      poll_aux oracle a fuel = (some br, k) := by
  intro fuel
  induction fuel with
  | zero => intro a k h1 h2 _ _; omega
  | succ fuel ih =>
    intro a k h1 h2 hpre hk
    by_cases he : a + 1 = k
    · subst he
      simp [poll_aux, hk]
    · have hlt : a + 1 < k := by omega
      have hstep : poll_step (oracle (a + 1)) = none := hpre (a + 1) (by omega) hlt
      simp [poll_aux, hstep]
      exact ih (a + 1) k hlt (by omega) (fun j hj1 hj2 => hpre j (by omega) hj2) hk

/-- Exhausting `maxA` non-terminal polls records exactly the timed-out
failure, after exactly `maxA` polls. -/
lemma poll_phase_timeout (polls : Nat → PollHttp) (mid nmid : String) (maxA : Nat)
    (h : ∀ j, 1 ≤ j → j ≤ maxA → poll_step (polls j) = none) :
    poll_phase polls mid nmid maxA
      = ([Outcome.failure mid "Copy operation timed out"], maxA) := by
  have hx := poll_aux_exhaust polls maxA 0 (fun j hj1 hj2 => h j hj1 (by omega))
  simp [poll_phase, hx]

/-- A first terminal Succeeded at attempt `k` records exactly the success,
after exactly `k` polls. -/
lemma poll_phase_succeeded (polls : Nat → PollHttp) (mid nmid : String)
    (maxA k : Nat) (hk1 : 1 ≤ k) (hk2 : k ≤ maxA)
    (hterm : poll_step (polls k) = some StepBreak.succeeded)
    (hpre : ∀ j, 1 ≤ j → j < k → poll_step (polls j) = none) :
    poll_phase polls mid nmid maxA = ([Outcome.success mid nmid], k) := by
  have hb := poll_aux_break polls StepBreak.succeeded maxA 0 k (by omega) (by omega)
    (fun j hj1 hj2 => hpre j (by omega) hj2) hterm
  simp [poll_phase, hb]

/-! Claim theorems. -/

/-- C1: the claim that exactly one `CopyOperationResult` is recorded per
(model, target) pairing FAILS on the code: when a terminal Failed status is
first observed on the final (30th) poll attempt, the loop breaks with the
failure record already appended, yet `attempt >= max_attempts` also holds
with `copy_completed` still false, so the timed-out failure of lines
947-952 is appended as well — two failure records for one pairing.  Here:
29 polls observe Running, the 30th observes Failed (no error payload). -/
theorem C1_double_record_on_final_attempt :
    (process_pairing "sep" "sk" ⟨ "T1", "tep"⟩ "tk" none "m1" ""
        ⟨AuthHttp.success "auth", InitHttp.success (some "loc"),
          fun n => if n < 30 then PollHttp.success ⟨ some "Running", none, none⟩
                   else PollHttp.success ⟨ some "Failed", none, none⟩⟩).1
      = [Outcome.failure "m1" "Unknown error",
         Outcome.failure "m1" "Copy operation timed out"] := rfl

/-- C3 counterexample: the claim says the recorded Success carries the
destination model id extracted from the result payload of the poll
response; on a run whose poll response carries result model id
"payload-id", the recorded Success instead carries the locally computed
destination id "m1-copy", which differs from the payload's id. -/
theorem C3_counterexample :
    ((process_pairing "sep" "sk" ⟨ "T1", "tep"⟩ "tk" none "m1" "-copy"
        ⟨AuthHttp.success "auth", InitHttp.success (some "loc"),
          fun _ => PollHttp.success ⟨ some "succeeded", some "payload-id", none⟩⟩).1
      = [Outcome.success "m1" "m1-copy"])
    ∧ ("m1-copy" : String) ≠ "payload-id" := ⟨rfl, by decide⟩

/-- C3 (amended): when the first terminal poll observes status Succeeded
(case-insensitively, in a response body without an error field), the
pairing is recorded as a Success carrying the locally computed destination
model id (source id plus suffix); the poll response's result payload is not
consulted. -/
theorem C3_success_records_local_destination_id (source_endpoint source_key : String)
    (tname tep target_key : String) (model : Option Model)
    (mid suffix auth loc : String) (polls : Nat → PollHttp) (k : Nat)
    (hk1 : 1 ≤ k) (hk2 : k ≤ max_attempts)
    (hterm : poll_step (polls k) = some StepBreak.succeeded)
    (hpre : ∀ j, 1 ≤ j → j < k → poll_step (polls j) = none) :
    (process_pairing source_endpoint source_key ⟨tname, tep⟩ target_key model mid suffix
        ⟨AuthHttp.success auth, InitHttp.success (some loc), polls⟩).1
      = [Outcome.success mid (new_model_id mid suffix)] := by
  have hp := poll_phase_succeeded polls mid (new_model_id mid suffix) max_attempts k
    hk1 hk2 hterm hpre
  simp [process_pairing, authorize_copy_model, copy_model_to_target, hp]

/-- Witness for C3: a run whose single poll observes Succeeded with a
result payload records the locally computed destination id. -/
theorem C3_success_records_local_destination_id_witness :
    (process_pairing "sep" "sk" ⟨ "T1", "tep"⟩ "tk" none "m1" "-copy"
        ⟨AuthHttp.success "auth", InitHttp.success (some "loc"),
          fun _ => PollHttp.success ⟨ some "Succeeded", some "payload-id", none⟩⟩).1
      = [Outcome.success "m1" (new_model_id "m1" "-copy")] :=
  C3_success_records_local_destination_id "sep" "sk" "T1" "tep" "tk" none "m1" "-copy"
    "auth" "loc" (fun _ => PollHttp.success ⟨ some "Succeeded", some "payload-id", none⟩)
    1 (by decide) (by decide) rfl (fun j hj1 hj2 => absurd (Nat.lt_of_lt_of_le hj2 hj1) (by omega))

/-- C4: if all `max_attempts` polls observe non-terminal statuses, the
pairing records exactly the timed-out failure, and exactly `max_attempts`
poll requests are issued — none afterward. -/
theorem C4_timeout_after_max_attempts (source_endpoint source_key : String)
    (tname tep target_key : String) (model : Option Model)
    (mid suffix auth loc : String) (polls : Nat → PollHttp)
    (h : ∀ j, 1 ≤ j → j ≤ max_attempts → poll_step (polls j) = none) :
    process_pairing source_endpoint source_key ⟨tname, tep⟩ target_key model mid suffix
        ⟨AuthHttp.success auth, InitHttp.success (some loc), polls⟩
      = ([Outcome.failure mid "Copy operation timed out"],
         ⟨ReqKind.authorize, authorize_copy_url tep (model_api_version model), target_key⟩ ::
         ⟨ReqKind.initiate, copy_to_url source_endpoint mid (model_api_version model),
           source_key⟩ ::
         List.replicate max_attempts ⟨ReqKind.poll, loc, source_key⟩) := by
  have hp := poll_phase_timeout polls mid (new_model_id mid suffix) max_attempts h
  simp [process_pairing, authorize_copy_model, copy_model_to_target, hp]

/-- Witness for C4: every poll observes Running, so the pairing times out
after exactly 30 polls. -/
theorem C4_timeout_after_max_attempts_witness :
    process_pairing "sep" "sk" ⟨ "T1", "tep"⟩ "tk" none "m1" "-c"
        ⟨AuthHttp.success "auth", InitHttp.success (some "loc"),
          fun _ => PollHttp.success ⟨ some "Running", none, none⟩⟩
      = ([Outcome.failure "m1" "Copy operation timed out"],
         ⟨ReqKind.authorize, authorize_copy_url "tep" (model_api_version none), "tk"⟩ ::
         ⟨ReqKind.initiate, copy_to_url "sep" "m1" (model_api_version none), "sk"⟩ ::
         List.replicate max_attempts ⟨ReqKind.poll, "loc", "sk"⟩) :=
  C4_timeout_after_max_attempts "sep" "sk" "T1" "tep" "tk" none "m1" "-c" "auth" "loc"
    (fun _ => PollHttp.success ⟨ some "Running", none, none⟩)
    (fun _ _ _ => rfl)

/-- C5: an initiate call that succeeds at the HTTP level but returns no
Operation-Location header records the dedicated missing-handle failure for
the pairing, and no poll request is issued (the request trace holds only
the authorize and initiate requests). -/
theorem C5_missing_operation_location (source_endpoint source_key : String)
    (tname tep target_key : String) (model : Option Model)
    (mid suffix auth : String) (polls : Nat → PollHttp) :
    process_pairing source_endpoint source_key ⟨tname, tep⟩ target_key model mid suffix
        ⟨AuthHttp.success auth, InitHttp.success none, polls⟩
      = ([Outcome.failure mid
            "Copy initiation failed: No Operation-Location header in response"],
         [⟨ReqKind.authorize, authorize_copy_url tep (model_api_version model), target_key⟩,
          ⟨ReqKind.initiate, copy_to_url source_endpoint mid (model_api_version model),
            source_key⟩]) := rfl

/-- C2: the copy dialect (api-version string and URL path segment) is a
pure function of the model's recorded api version, equal to the spec's
routing rule — present and lexicographically at least "2024-11-30" gives
("2024-11-30", "documentintelligence"), any other case (absent included)
gives ("2023-07-31", "formrecognizer") — and within one pairing the
authorize request and the initiate request are built from that same
dialect: the trace is either the authorize request alone, or the authorize
request followed by the initiate request (both at version
`get_api_version_from_model m`) and some number of identical poll
requests. -/
theorem C2_version_routing (m : Model) (source_endpoint source_key : String)
    (tname tep target_key mid suffix : String) (po : PairingOracle) :
    ((get_api_version_from_model m, path_prefix_for (get_api_version_from_model m))
        = routeFor_spec m.api_version)
    ∧ ((process_pairing source_endpoint source_key ⟨tname, tep⟩ target_key (some m)
          mid suffix po).2
        = [⟨ReqKind.authorize,
            authorize_copy_url tep (get_api_version_from_model m), target_key⟩]
      ∨ ∃ loc n,
          (process_pairing source_endpoint source_key ⟨tname, tep⟩ target_key (some m)
            mid suffix po).2
          = ⟨ReqKind.authorize,
              authorize_copy_url tep (get_api_version_from_model m), target_key⟩ ::
            ⟨ReqKind.initiate,
              copy_to_url source_endpoint mid (get_api_version_from_model m),
              source_key⟩ ::
            List.replicate n ⟨ReqKind.poll, loc, source_key⟩) := by
  refine ⟨code_route_eq_spec m, ?_⟩
  cases hA : po.authResp with
  | failure msg =>
    left
    simp [process_pairing, authorize_copy_model, hA, model_api_version]
  | success auth =>
    right
    cases hI : po.initResp with
    | failure msg =>
      exact ⟨ "", 0, by simp [process_pairing, authorize_copy_model,
        copy_model_to_target, hA, hI, model_api_version]⟩
    | success olocOpt =>
      cases hLoc : olocOpt with
      | none =>
        exact ⟨ "", 0, by simp [process_pairing, authorize_copy_model,
          copy_model_to_target, hA, hI, hLoc, model_api_version]⟩
      | some loc =>
        exact ⟨loc,
          (poll_phase po.pollResp mid (new_model_id mid suffix) max_attempts).2,
          by simp [process_pairing, authorize_copy_model, copy_model_to_target,
            hA, hI, hLoc, model_api_version]⟩

/-- C6: when a target's credential does not resolve, the run records one
"Failed to retrieve target API key" failure for every selected model for
that target, issues no request against it, and continues: the remaining
targets' entries are exactly what the run yields on them alone, so their
pairings are unaffected. -/
theorem C6_credential_failure_scoped_to_target (source_endpoint source_key : String)
    (copy_suffix : String) (models : String → Option Model) (selected : List String)
    (cfg : TargetCfg) (client_ok : Bool) (pairings : Nat → PairingOracle)
    (rest : List TargetInput) :
    run_copy source_endpoint source_key copy_suffix models selected
        (⟨cfg, none, client_ok, pairings⟩ :: rest)
      = (cfg.name,
         selected.map (fun mid => Outcome.failure mid "Failed to retrieve target API key"),
         ([] : List Request))
        :: run_copy source_endpoint source_key copy_suffix models selected rest := rfl

/-- C7: the claim that on a terminal Failed status the failure message is
extracted from the error payload (object or plain-string shape) FAILS on
the code: the check of line 909 treats any body containing an "error" key
as a failed status check, so a Failed response carrying the plain-string
payload "quota exceeded" is recorded as "Status check failed: quota
exceeded" (after one poll), not as "quota exceeded". -/
theorem C7_failed_error_payload_intercepted :
    (poll_phase (fun _ => PollHttp.success ⟨ some "Failed", none,
          some (ErrorPayload.str "quota exceeded")⟩) "m1" "m1-copy" max_attempts
      = ([Outcome.failure "m1" "Status check failed: quota exceeded"], 1))
    ∧ ("Status check failed: quota exceeded" : String) ≠ "quota exceeded" :=
  ⟨rfl, by decide⟩

/-- C8: the destination model id is the source model id with the suffix
appended verbatim, and the empty suffix leaves the id unchanged. -/
theorem C8_destination_id_is_verbatim_append (mid suffix : String) :
    new_model_id mid suffix = mid ++ suffix ∧ new_model_id mid "" = mid := by
  constructor
  · by_cases h : suffix = ""
    · subst h; simp [new_model_id]
    · simp [new_model_id, h]
  · simp [new_model_id]

/-- C10: the claim that a Failed poll whose error payload is an object
lacking a message field records "Unknown error", and that a non-object
payload records its string form, FAILS on the code: line 909 intercepts any
body with an "error" key, so the empty-object payload records
"Status check failed: \x7b\x7d" — the claimed "Unknown error" is recorded
only when the error payload is absent altogether. -/
theorem C10_unknown_error_only_when_payload_absent :
    (poll_phase (fun _ => PollHttp.success ⟨ some "failed", none,
          some (ErrorPayload.obj none)⟩) "m1" "n1" max_attempts
      = ([Outcome.failure "m1" ("Status check failed: " ++ pyStr (ErrorPayload.obj none))], 1))
    ∧ (poll_phase (fun _ => PollHttp.success ⟨ some "failed", none, none⟩)
          "m1" "n1" max_attempts
      = ([Outcome.failure "m1" "Unknown error"], 1))
    ∧ ("Status check failed: " ++ pyStr (ErrorPayload.obj none)) ≠ "Unknown error" :=
  ⟨rfl, rfl, by decide⟩

/-- Every poll request issued while processing one pairing carries the
source key. -/
lemma pairing_poll_key (source_endpoint source_key : String) (cfg : TargetCfg)
    (target_key : String) (model : Option Model) (mid suffix : String)
    (po : PairingOracle) :
    ∀ r ∈ (process_pairing source_endpoint source_key cfg target_key model mid suffix
      po).2, r.kind = ReqKind.poll → r.key = source_key := by
  intro r hr hk
  cases hA : authorize_copy_model po.authResp with
  | err msg =>
    simp [process_pairing, hA] at hr
    subst hr
    simp at hk
  | auth auth =>
    cases hI : copy_model_to_target po.initResp with
    | err msg =>
      simp [process_pairing, hA, hI] at hr
      rcases hr with hr | hr
      · subst hr; simp at hk
      · subst hr; simp at hk
    | ok loc =>
      simp [process_pairing, hA, hI] at hr
      rcases hr with hr | hr | hr
      · subst hr; simp at hk
      · subst hr; simp at hk
      · obtain ⟨-, hr⟩ := hr
        subst hr
        rfl

/-- Every poll request issued across a target's pairings carries the source
key. -/
lemma run_pairings_poll_key (source_endpoint source_key copy_suffix : String)
    (models : String → Option Model) (cfg : TargetCfg) (target_key : String)
    (po : Nat → PairingOracle) :
    ∀ (selected : List String) (i : Nat),
      ∀ r ∈ (run_pairings source_endpoint source_key copy_suffix models cfg target_key
        po selected i).2, r.kind = ReqKind.poll → r.key = source_key := by
  intro selected
  induction selected with
  | nil => intro i r hr; simp [run_pairings] at hr
  | cons mid rest ih =>
    intro i r hr hk
    simp [run_pairings] at hr
    rcases hr with hr | hr
    · exact pairing_poll_key source_endpoint source_key cfg target_key (models mid)
        mid copy_suffix (po i) r hr hk
    · exact ih (i + 1) r hr hk

/-- Every poll request issued while processing one target carries the
source key. -/
lemma run_target_poll_key (source_endpoint source_key copy_suffix : String)
    (models : String → Option Model) (selected : List String) (t : TargetInput) :
    ∀ r ∈ (run_target source_endpoint source_key copy_suffix models selected t).2,
      r.kind = ReqKind.poll → r.key = source_key := by
  intro r hr hk
  cases hKey : t.key with
  | none => simp [run_target, hKey] at hr
  | some tk =>
    cases hC : t.client_ok with
    | false => simp [run_target, hKey, hC] at hr
    | true =>
      simp only [run_target, hKey, hC, if_true] at hr
      exact run_pairings_poll_key source_endpoint source_key copy_suffix models t.cfg
        tk t.pairings selected 0 r hr hk

/-- C9: in a whole multi-target run, every status-poll request — in every
target's request trace — is authenticated with the source resource's key,
the key that initiated the copies, never a target's key. -/
theorem C9_polls_authenticated_with_source_key (source_endpoint source_key : String)
    (copy_suffix : String) (models : String → Option Model) (selected : List String)
    (targets : List TargetInput) :
    ∀ e ∈ run_copy source_endpoint source_key copy_suffix models selected targets,
      ∀ r ∈ e.2.2, r.kind = ReqKind.poll → r.key = source_key := by
  induction targets with
  | nil => intro e he; simp [run_copy] at he
  | cons t ts ih =>
    intro e he r hr hk
    simp [run_copy] at he
    rcases he with he | he
    · subst he
      exact run_target_poll_key source_endpoint source_key copy_suffix models selected
        t r hr hk
    · exact ih e he r hr hk

/-- Witness for C9: a concrete single-target run that issues one poll
request; that request's key is the source key "srckey". -/
theorem C9_polls_authenticated_with_source_key_witness :
    (⟨ReqKind.poll, "loc", "srckey"⟩ : Request).key = "srckey" :=
  C9_polls_authenticated_with_source_key "sep" "srckey" "" (fun _ => none) ["m1"]
    [⟨⟨ "T1", "tep"⟩, some "tkey", true,
      fun _ => ⟨AuthHttp.success "auth", InitHttp.success (some "loc"),
        fun _ => PollHttp.success ⟨ some "succeeded", none, none⟩⟩⟩]
    ("T1",
     [Outcome.success "m1" "m1"],
     [⟨ReqKind.authorize, authorize_copy_url "tep" "2023-07-31", "tkey"⟩,
      ⟨ReqKind.initiate, copy_to_url "sep" "m1" "2023-07-31", "srckey"⟩,
      ⟨ReqKind.poll, "loc", "srckey"⟩])
    (by decide)
    ⟨ReqKind.poll, "loc", "srckey"⟩
    (by decide)
    rfl

end DIAdmin
